import Mathlib

/-!
Shallow embedding of `src/ayvc.py` (Banana Ripeness Detector).

The repository's logic lives in `analyze_image_with_vision_api`, which
encodes an image to base64, reads configuration, normalizes the endpoint,
issues one HTTP POST, and performs a two-stage JSON decode of the response
(outer envelope, then the `choices[0].message.content` string re-parsed as
the report JSON).  `main` selects between a camera frame and an uploaded
file.  Streamlit, cv2 and `requests` are external: the camera/upload
inputs, the image decoder and the HTTP transport are parameters of the
embedding, and `st.error` calls are recorded in an effect trace.
-/

/-- JSON values as produced by Python's `json.loads`.  Numbers written with a
fraction or exponent become Python floats; we keep their raw text in `fnum`
(no claim compares float values, so float arithmetic is never modelled).
Objects are association lists; a duplicate key overwrites the earlier value,
as in Python. -/
inductive Json where
  | null : Json
  | bool (b : Bool) : Json
  | num (n : Int) : Json
  | fnum (raw : String) : Json
  | str (s : String) : Json
  | arr (xs : List Json) : Json
  | obj (kvs : List (String × Json)) : Json

/-- First value bound to `key`, if any (objects never hold duplicates,
see `objInsert`). -/
def lookupKey (key : String) : List (String × Json) → Option Json
  | [] => none
  | (k, v) :: rest => if k = key then some v else lookupKey key rest

/-- Bind `key` to `v`, overwriting an existing binding (Python dict update
during `json.loads` of an object with duplicate keys). -/
def objInsert (kvs : List (String × Json)) (key : String) (v : Json) :
    List (String × Json) :=
  match kvs with
  | [] => [(key, v)]
  | (k, w) :: rest =>
      if k = key then (k, v) :: rest else (k, w) :: objInsert rest key v

/-- JSON whitespace (space, tab, newline, carriage return). -/
def skipWs : List Char → List Char
  | [] => []
  | c :: cs =>
      if c == ' ' || c == '\t' || c == '\n' || c == '\r' then skipWs cs
      else c :: cs

/-- Value of a hexadecimal digit. -/
def hexVal (c : Char) : Option Nat :=
  if '0' ≤ c ∧ c ≤ '9' then some (c.toNat - 48)
  else if 'a' ≤ c ∧ c ≤ 'f' then some (c.toNat - 87)
  else if 'A' ≤ c ∧ c ≤ 'F' then some (c.toNat - 70)
  else none

/-- Body of a JSON string after the opening quote: strict mode (unescaped
control characters rejected), the standard escapes and `\uXXXX`.  Returns the
decoded string and the remaining input. -/
def parseStringBody (acc : List Char) : List Char → Option (String × List Char)
  | [] => none
  | '\"' :: rest => some (⟨acc.reverse⟩, rest)
  | '\\' :: 'u' :: h1 :: h2 :: h3 :: h4 :: rest =>
      match hexVal h1, hexVal h2, hexVal h3, hexVal h4 with
      | some a, some b, some c, some d =>
          parseStringBody (Char.ofNat (((a * 16 + b) * 16 + c) * 16 + d) :: acc) rest
      | _, _, _, _ => none
  | '\\' :: e :: rest =>
      match e with
      | '\"' => parseStringBody ('\"' :: acc) rest
      | '\\' => parseStringBody ('\\' :: acc) rest
      | '/' => parseStringBody ('/' :: acc) rest
      | 'b' => parseStringBody (Char.ofNat 8 :: acc) rest
      | 'f' => parseStringBody (Char.ofNat 12 :: acc) rest
      | 'n' => parseStringBody ('\n' :: acc) rest
      | 'r' => parseStringBody ('\r' :: acc) rest
      | 't' => parseStringBody ('\t' :: acc) rest
      | _ => none
  | c :: rest =>
      if c.toNat < 32 then none else parseStringBody (c :: acc) rest

/-- Integer value of a digit string. -/
def digitsToNat (ds : List Char) : Nat :=
  ds.foldl (fun n c => n * 10 + (c.toNat - 48)) 0

/-- A JSON number starting at the input head: optional minus, integer part
with no leading zero, optional fraction and exponent.  A plain integer
becomes `Json.num`; a fraction or exponent makes it a Python float, kept as
raw text in `Json.fnum`. -/
def parseNumber (cs : List Char) : Option (Json × List Char) :=
  let (neg, cs1) := match cs with
    | '-' :: r => (true, r)
    | _ => (false, cs)
  let ints := cs1.takeWhile Char.isDigit
  let cs2 := cs1.dropWhile Char.isDigit
  if ints = [] then none
  else if 1 < ints.length ∧ ints.headD '0' = '0' then none
  else
    let mkRaw (extra : List Char) : String :=
      ⟨(if neg then ['-'] else []) ++ ints ++ extra⟩
    let parseExp (pre : List Char) (cs3 : List Char) : Option (Json × List Char) :=
      match cs3 with
      | e :: cs4 =>
          if e == 'e' || e == 'E' then
            let (sgn, cs5) := match cs4 with
              | '+' :: r => (['+'], r)
              | '-' :: r => (['-'], r)
              | _ => (([] : List Char), cs4)
            let eds := cs5.takeWhile Char.isDigit
            let cs6 := cs5.dropWhile Char.isDigit
            if eds = [] then none
            else some (.fnum (mkRaw (pre ++ e :: sgn ++ eds)), cs6)
          else if pre = [] then
            some (.num (if neg then -(digitsToNat ints : Int) else (digitsToNat ints : Int)), cs3)
          else some (.fnum (mkRaw pre), cs3)
      | [] =>
          if pre = [] then
            some (.num (if neg then -(digitsToNat ints : Int) else (digitsToNat ints : Int)), [])
          else some (.fnum (mkRaw pre), [])
    match cs2 with
    | '.' :: cs3 =>
        let fds := cs3.takeWhile Char.isDigit
        let cs4 := cs3.dropWhile Char.isDigit
        if fds = [] then none
        else parseExp ('.' :: fds) cs4
    | _ => parseExp [] cs2

mutual

/-- One JSON value starting at the input head (whitespace already skipped).
`fuel` bounds the recursion; `json_loads` supplies enough for any input. -/
def parseVal (fuel : Nat) (cs : List Char) : Option (Json × List Char) :=
  match fuel with
  | 0 => none
  | fuel + 1 =>
      match cs with
      | [] => none
      | '\x7b' :: rest => parseObjBody fuel (skipWs rest)
      | '[' :: rest => parseArrBody fuel (skipWs rest)
      | '\"' :: rest =>
          match parseStringBody [] rest with
          | some (s, rest2) => some (.str s, rest2)
          | none => none
      | 't' :: 'r' :: 'u' :: 'e' :: rest => some (.bool true, rest)
      | 'f' :: 'a' :: 'l' :: 's' :: 'e' :: rest => some (.bool false, rest)
      | 'n' :: 'u' :: 'l' :: 'l' :: rest => some (.null, rest)
      | c :: _ =>
          if c == '-' || c.isDigit then parseNumber cs else none

/-- Members of an object after the opening brace (whitespace skipped):
either the closing brace, or `"key": value` pairs separated by commas. -/
def parseObjBody (fuel : Nat) (cs : List Char) : Option (Json × List Char) :=
  match fuel with
  | 0 => none
  | fuel + 1 =>
      match cs with
      | '\x7d' :: rest => some (.obj [], rest)
      | _ => parseObjItems fuel [] cs

/-- The `"key": value (, "key": value)*` tail of a nonempty object. -/
def parseObjItems (fuel : Nat) (kvs : List (String × Json)) (cs : List Char) :
    Option (Json × List Char) :=
  match fuel with
  | 0 => none
  | fuel + 1 =>
      match cs with
      | '\"' :: rest =>
          match parseStringBody [] rest with
          | none => none
          | some (key, rest2) =>
              match skipWs rest2 with
              | ':' :: rest3 =>
                  match parseVal fuel (skipWs rest3) with
                  | none => none
                  | some (v, rest4) =>
                      let kvs2 := objInsert kvs key v
                      match skipWs rest4 with
                      | ',' :: rest5 => parseObjItems fuel kvs2 (skipWs rest5)
                      | '\x7d' :: rest5 => some (.obj kvs2, rest5)
                      | _ => none
              | _ => none
      | _ => none

/-- Elements of an array after the opening bracket (whitespace skipped). -/
def parseArrBody (fuel : Nat) (cs : List Char) : Option (Json × List Char) :=
  match fuel with
  | 0 => none
  | fuel + 1 =>
      match cs with
      | ']' :: rest => some (.arr [], rest)
      | _ => parseArrItems fuel [] cs

/-- The `value (, value)*` tail of a nonempty array. -/
def parseArrItems (fuel : Nat) (xs : List Json) (cs : List Char) :
    Option (Json × List Char) :=
  match fuel with
  | 0 => none
  | fuel + 1 =>
      match parseVal fuel cs with
      | none => none
      | some (v, rest) =>
          match skipWs rest with
          | ',' :: rest2 => parseArrItems fuel (xs ++ [v]) (skipWs rest2)
          | ']' :: rest2 => some (.arr (xs ++ [v]), rest2)
          | _ => none

end

/-- Python's `json.loads`: parse a complete JSON document, allowing
surrounding whitespace, rejecting trailing garbage.  `none` models
`json.JSONDecodeError`.  (The non-standard `NaN`/`Infinity` extension is not
modelled; no input in this development uses it.) -/
def json_loads (s : String) : Option Json :=
  match parseVal (2 * s.length + 2) (skipWs s.data) with
  | some (v, rest) => if skipWs rest = [] then some v else none
  | none => none

/-! ## base64 (Python `base64.b64encode`) -/

/-- The standard base64 alphabet. -/
def base64Alphabet : List Char :=
  "ABCDEFGHIJKLMNOPQRSTUVWXYZabcdefghijklmnopqrstuvwxyz0123456789+/".data

/-- Character for a 6-bit group. -/
def b64c (n : Nat) : Char := base64Alphabet.getD n 'A'

/-- Standard base64 of a byte list, with `=` padding, three bytes at a
time (`base64.b64encode`). -/
def base64EncodeList : List Nat → List Char
  | [] => []
  | [a] =>
      let a := a % 256
      [b64c (a / 4), b64c (a % 4 * 16), '=', '=']
  | [a, b] =>
      let a := a % 256
      let b := b % 256
      [b64c (a / 4), b64c (a % 4 * 16 + b / 16), b64c (b % 16 * 4), '=']
  | a :: b :: c :: rest =>
      let a := a % 256
      let b := b % 256
      let c := c % 256
      b64c (a / 4) :: b64c (a % 4 * 16 + b / 16) ::
        b64c (b % 16 * 4 + c / 64) :: b64c (c % 64) :: base64EncodeList rest

/-- `encode_image_to_base64`: base64 of the file buffer's bytes, decoded to
a string.  (The `isinstance(BytesIO)` branch only chooses where the bytes
come from; both branches base64-encode the same byte buffer.  The
`except` branch is unreachable for a byte buffer.) -/
def encode_image_to_base64 (image_file : List Nat) : String :=
  ⟨base64EncodeList image_file⟩

/-! ## Configuration and the HTTP world -/

/-- The four secrets read via `get_secret`; `none` means the key is absent
from `secrets.toml` (`st.secrets.get` returns the default), `some s` that it
is set to `s` (possibly the empty string). -/
structure Config where
  azure_endpoint : Option String
  azure_api_key : Option String
  azure_model : Option String
  api_version : Option String

/-- Python truthiness of `get_secret`'s result as used in
`if not endpoint or not api_key`: falsy iff absent or the empty string. -/
def pyFalsyStr : Option String → Bool
  | none => true
  | some s => s = ""

/-- What the mocked transport does for the single `requests.post`:
either raise `requests.exceptions.RequestException` (timeout, connection
error), or deliver a response with a status code and a body text. -/
inductive HttpResponse where
  | requestException : HttpResponse
  | resp (status : Nat) (body : String) : HttpResponse

/-- The observable parts of the outbound request. -/
structure RequestInfo where
  url : String
  apiKeyHeader : String
  imageDataUrl : String

/-- How `analyze_image_with_vision_api` terminates: `ret v` models
`return` (with `none` for Python `None`), `exn e` an uncaught exception
named `e`. -/
inductive PyOutcome where
  | ret (v : Option Json) : PyOutcome
  | exn (e : String) : PyOutcome

/-- Result of one `analyze_image_with_vision_api` call: its outcome plus the
effect trace (whether `requests.post` ran, the request it sent, and the
`st.error` messages emitted). -/
structure AnalyzeResult where
  outcome : PyOutcome
  httpCalled : Bool
  request : Option RequestInfo
  errors : List String

/-- Python `s.startswith(pre)`. -/
def strStartsWith (s pre : String) : Bool :=
  pre.data.isPrefixOf s.data

/-- Python `s.rstrip("/")`: drop every trailing slash. -/
def rstripSlashes (s : String) : String :=
  ⟨(s.data.reverse.dropWhile (fun c => c == '/')).reverse⟩

/-- Lines 76-78: add a scheme if absent, strip trailing slashes. -/
def normalizeEndpoint (e : String) : String :=
  rstripSlashes (if strStartsWith e "http://" || strStartsWith e "https://" then e
    else "https://" ++ e)

/-- Python `x.get(key, default)`: on a dict, lookup with default; on any
other `json.loads` value, `AttributeError` (no `get` attribute). -/
def pyDictGet (j : Json) (key : String) (dflt : Json) : Except String Json :=
  match j with
  | .obj kvs => .ok ((lookupKey key kvs).getD dflt)
  | _ => .error "AttributeError"

/-- Python `x[0]` on a `json.loads` value: list indexing (IndexError when
empty), string indexing (a one-character string), `KeyError` on a dict whose
keys are strings, `TypeError` on the non-subscriptable values. -/
def pyIndexZero : Json → Except String Json
  | .arr [] => .error "IndexError"
  | .arr (x :: _) => .ok x
  | .str s => if s.data = [] then .error "IndexError"
      else .ok (.str ⟨s.data.take 1⟩)
  | .obj _ => .error "KeyError"
  | _ => .error "TypeError"

/-- Line 128: `result.get("choices", [{}])[0].get("message", {}).get("content", "{}")`. -/
def extractContent (result : Json) : Except String Json :=
  pyDictGet result "choices" (.arr [.obj []]) >>= pyIndexZero >>=
    (pyDictGet · "message" (.obj [])) >>= (pyDictGet · "content" (.str "\x7b\x7d"))

/-- The request `analyze_image_with_vision_api` sends once configuration
checks pass: `api_url` from lines 75-81, the `api-key` header, and the data
URL of line 110 — always labelled `image/jpeg`, whatever the bytes hold. -/
def builtRequest (cfg : Config) (image : List Nat) : RequestInfo :=
  { url := normalizeEndpoint (cfg.azure_endpoint.getD "") ++ "/openai/deployments/" ++
      cfg.azure_model.getD "EDM-mini" ++ "/chat/completions?api-version=" ++
      cfg.api_version.getD "2024-02-15-preview",
    apiKeyHeader := cfg.azure_api_key.getD "",
    imageDataUrl := "data:image/jpeg;base64," ++ encode_image_to_base64 image }

/-- Lines 126-135, the stage reached only at HTTP status 200: parse the
response body, dig out `choices[0].message.content`, and re-parse that
content as the report JSON.

Since requests ≥ 2.27 a response body that is not JSON makes
`response.json()` raise `requests.exceptions.JSONDecodeError`, a
`RequestException`, caught by the function's outer `except`; it is modelled
as that branch.  `AttributeError` / `IndexError` / `KeyError` / `TypeError`
raised while digging out the content, and the `TypeError` from `json.loads`
on a non-string content, match no `except` clause and escape. -/
def responseParse (cfg : Config) (image : List Nat) (body : String) :
    AnalyzeResult :=
  let req : RequestInfo := builtRequest cfg image
  match json_loads body with
  | none =>
      { outcome := .ret none, httpCalled := true, request := some req,
        errors := ["Error in API request"] }
  | some result =>
      match extractContent result with
      | .error e =>
          { outcome := .exn e, httpCalled := true, request := some req,
            errors := [] }
      | .ok content =>
          match content with
          | .str s =>
              match json_loads s with
              | some v =>
                  { outcome := .ret (some v), httpCalled := true,
                    request := some req, errors := [] }
              | none =>
                  { outcome := .ret none, httpCalled := true,
                    request := some req,
                    errors := ["Failed to parse response as JSON"] }
          | _ =>
              -- `json.loads` on a non-string: uncaught TypeError
              { outcome := .exn "TypeError", httpCalled := true,
                request := some req, errors := [] }

/-- `analyze_image_with_vision_api` (lines 57-139), over a configuration, the
image file's bytes, and the transport's behaviour.  The outer `try` catches
only `requests.exceptions.RequestException` (see `responseParse`). -/
def analyze_image_with_vision_api (cfg : Config) (image : List Nat)
    (http : HttpResponse) : AnalyzeResult :=
  let base64_image := encode_image_to_base64 image
  if base64_image = "" then
    -- line 61: `if not base64_image: return None` (encoding returned falsy)
    { outcome := .ret none, httpCalled := false, request := none, errors := [] }
  else
    if pyFalsyStr cfg.azure_endpoint || pyFalsyStr cfg.azure_api_key then
      { outcome := .ret none, httpCalled := false, request := none,
        errors := ["Missing API configuration. Please check your secrets.toml file."] }
    else
      let req : RequestInfo := builtRequest cfg image
      match http with
      | .requestException =>
          { outcome := .ret none, httpCalled := true, request := some req,
            errors := ["Error in API request"] }
      | .resp status body =>
          if status ≠ 200 then
            { outcome := .ret none, httpCalled := true, request := some req,
              errors := ["API Error: " ++ toString status] }
          else
            responseParse cfg image body

/-! ## `main`: image acquisition (lines 141-152) -/

/-- Where the analyzed image came from. -/
inductive Source where
  | camera : Source
  | upload : Source

/-- `capture_image` / `upload_image`: given the widget's buffer (if the user
provided one) and cv2's decoder, return the decoded image and the buffer.
`cv2.imdecode` is external, so the decoder is a parameter; a decoded image is
an opaque token. -/
def acquireFrom (decode : List Nat → Option Nat) :
    Option (List Nat) → Option Nat × Option (List Nat)
  | none => (none, none)
  | some buf => (decode buf, some buf)

/-- Outcome of the two acquisition tabs in `main`. -/
structure Acquisition where
  img : Option Nat
  file : Option (List Nat)
  source : Option Source
  uploadConsulted : Bool

/-- Lines 145-152: tab 1 runs `capture_image`; `source` is `"camera"` iff it
decoded an image; tab 2 runs `upload_image` only when `source is None`. -/
def main_select (decode : List Nat → Option Nat)
    (cameraBuf uploadBuf : Option (List Nat)) : Acquisition :=
  let (img1, file1) := acquireFrom decode cameraBuf
  if img1.isSome then
    { img := img1, file := file1, source := some .camera, uploadConsulted := false }
  else
    let (img2, file2) := acquireFrom decode uploadBuf
    { img := img2, file := file2,
      source := if img2.isSome then some .upload else none,
      uploadConsulted := true }

/-- Python truthiness of a `json.loads` value, as in `main`'s
`if results:` check on the analyzer's result (line 171). -/
def pyTruthy : Json → Bool
  | .null => false
  | .bool b => b
  | .num n => n != 0
  | .fnum _ => true
  | .str s => s != ""
  | .arr xs => !xs.isEmpty
  | .obj kvs => !kvs.isEmpty

/-! ## Concrete inputs used by the claims -/

/-- The response-envelope shape the API is asked to produce:
`choices[0].message.content` holding a string. -/
def reportEnvelope (s : String) : Json :=
  .obj [("choices", .arr [.obj [("message", .obj [("content", .str s)])]])]

/-- The inner report JSON of the spec's mocked success body. -/
def c1InnerStr : String :=
  "\x7b\"total_count\":2,\"unripe_count\":1,\"ripe_count\":1,\"overripe_count\":0,\"detailed_analysis\":\"two bananas\"\x7d"

/-- The spec's mocked success body: the envelope whose content string is
`c1InnerStr` with its quotes JSON-escaped. -/
def c1Body : String :=
  "\x7b\"choices\":[\x7b\"message\":\x7b\"content\":\"\x7b\\\"total_count\\\":2,\\\"unripe_count\\\":1,\\\"ripe_count\\\":1,\\\"overripe_count\\\":0,\\\"detailed_analysis\\\":\\\"two bananas\\\"\x7d\"\x7d\x7d]\x7d"

/-- Fields of the report parsed out of `c1Body`. -/
def c1Fields : List (String × Json) :=
  [("total_count", .num 2), ("unripe_count", .num 1), ("ripe_count", .num 1),
   ("overripe_count", .num 0), ("detailed_analysis", .str "two bananas")]

/-- A configuration whose endpoint needs both scheme prefixing and
trailing-slash stripping, with model and version left to their defaults. -/
def cfgA : Config :=
  { azure_endpoint := some "myhost.example.com/", azure_api_key := some "key",
    azure_model := none, api_version := none }

/-- Envelope whose content is the non-JSON string `not json`. -/
def c4Body : String :=
  "\x7b\"choices\":[\x7b\"message\":\x7b\"content\":\"not json\"\x7d\x7d]\x7d"

/-- Envelope whose content is `5` — valid JSON without the report shape. -/
def c7Body : String :=
  "\x7b\"choices\":[\x7b\"message\":\x7b\"content\":\"5\"\x7d\x7d]\x7d"

/-- Inner report claiming 5 bananas while the categories sum to 2. -/
def c8InnerStr : String :=
  "\x7b\"total_count\":5,\"unripe_count\":1,\"ripe_count\":1,\"overripe_count\":0,\"detailed_analysis\":\"five bananas\"\x7d"

/-- Envelope carrying `c8InnerStr` as its content string. -/
def c8Body : String :=
  "\x7b\"choices\":[\x7b\"message\":\x7b\"content\":\"\x7b\\\"total_count\\\":5,\\\"unripe_count\\\":1,\\\"ripe_count\\\":1,\\\"overripe_count\\\":0,\\\"detailed_analysis\\\":\\\"five bananas\\\"\x7d\"\x7d\x7d]\x7d"

/-- Valid JSON body whose `choices` key holds an empty list. -/
def c9EmptyChoicesBody : String := "\x7b\"choices\":[]\x7d"

/-- Valid JSON body with no `choices` key. -/
def c9NoChoicesBody : String := "\x7b\x7d"

/-- Valid JSON body whose first choice has no `message` key. -/
def c9NoMessageBody : String := "\x7b\"choices\":[\x7b\x7d]\x7d"

/-- Valid JSON body whose message has no `content` key. -/
def c9NoContentBody : String := "\x7b\"choices\":[\x7b\"message\":\x7b\x7d\x7d]\x7d"

/-! ## Helper lemmas -/

/-- base64 of a nonempty byte list is a nonempty string, so line 61 of the
source (`if not base64_image`) does not short-circuit. -/
theorem encode_ne_empty (l : List Nat) (h : l ≠ []) :
    encode_image_to_base64 l ≠ "" := by
  match l with
  | [] => exact absurd rfl h
  | [a] => simp [encode_image_to_base64, base64EncodeList, String.ext_iff]
  | [a, b] => simp [encode_image_to_base64, base64EncodeList, String.ext_iff]
  | a :: b :: c :: rest =>
      simp [encode_image_to_base64, base64EncodeList, String.ext_iff]

/-- With a nonempty image and non-falsy endpoint/key, a 200 response reaches
the body-parsing stage. -/
theorem analyze_200 (cfg : Config) (image : List Nat) (body : String)
    (himg : image ≠ [])
    (hep : pyFalsyStr cfg.azure_endpoint = false)
    (hkey : pyFalsyStr cfg.azure_api_key = false) :
    analyze_image_with_vision_api cfg image (.resp 200 body) =
      responseParse cfg image body := by
  have h1 : encode_image_to_base64 image ≠ "" := encode_ne_empty image himg
  unfold analyze_image_with_vision_api
  rw [if_neg h1]
  simp [hep, hkey]

/-- On a body that parses to the expected envelope, the parsing stage is
the inner decode of the content string. -/
theorem responseParse_envelope (cfg : Config) (image : List Nat)
    (body s : String)
    (hbody : json_loads body = some (reportEnvelope s)) :
    responseParse cfg image body =
      match json_loads s with
      | some v =>
          { outcome := .ret (some v), httpCalled := true,
            request := some (builtRequest cfg image), errors := [] }
      | none =>
          { outcome := .ret none, httpCalled := true,
            request := some (builtRequest cfg image),
            errors := ["Failed to parse response as JSON"] } := by
  unfold responseParse
  rw [hbody]
  simp [reportEnvelope, extractContent, pyDictGet, lookupKey, pyIndexZero,
    bind, Except.bind]

/-- Happy path: envelope body with a content string that parses to `v`. -/
theorem analyze_content_ok (cfg : Config) (image : List Nat) (body s : String)
    (v : Json) (himg : image ≠ [])
    (hep : pyFalsyStr cfg.azure_endpoint = false)
    (hkey : pyFalsyStr cfg.azure_api_key = false)
    (hbody : json_loads body = some (reportEnvelope s))
    (hs : json_loads s = some v) :
    analyze_image_with_vision_api cfg image (.resp 200 body) =
      { outcome := .ret (some v), httpCalled := true,
        request := some (builtRequest cfg image), errors := [] } := by
  rw [analyze_200 cfg image body himg hep hkey,
    responseParse_envelope cfg image body s hbody, hs]

/-- Envelope body whose content string fails to parse as JSON. -/
theorem analyze_content_bad (cfg : Config) (image : List Nat) (body s : String)
    (himg : image ≠ [])
    (hep : pyFalsyStr cfg.azure_endpoint = false)
    (hkey : pyFalsyStr cfg.azure_api_key = false)
    (hbody : json_loads body = some (reportEnvelope s))
    (hs : json_loads s = none) :
    analyze_image_with_vision_api cfg image (.resp 200 body) =
      { outcome := .ret none, httpCalled := true,
        request := some (builtRequest cfg image),
        errors := ["Failed to parse response as JSON"] } := by
  rw [analyze_200 cfg image body himg hep hkey,
    responseParse_envelope cfg image body s hbody, hs]

/-- The head surviving a `dropWhile` fails the dropped predicate. -/
theorem head?_dropWhile_negp (p : Char → Bool) (l : List Char) :
    ∀ c, (l.dropWhile p).head? = some c → p c = false := by
  induction l with
  | nil => intro c h; simp [List.dropWhile] at h
  | cons a as ih =>
      intro c h
      rw [List.dropWhile_cons] at h
      cases hpa : p a with
      | true => rw [hpa] at h; simp at h; exact ih c h
      | false => rw [hpa] at h; simp at h; exact h ▸ hpa

/-- `rstrip("/")` leaves no trailing slash. -/
theorem rstripSlashes_no_trailing (s : String) :
    (rstripSlashes s).data.getLast? ≠ some '/' := by
  intro h
  unfold rstripSlashes at h
  rw [List.getLast?_reverse] at h
  have := head?_dropWhile_negp (fun c => c == '/') s.data.reverse '/' h
  simp at this

/-- Whatever the body holds, the parsing stage keeps the request that was
sent. -/
theorem responseParse_request (cfg : Config) (image : List Nat) (body : String) :
    (responseParse cfg image body).request = some (builtRequest cfg image) := by
  unfold responseParse
  repeat' split
  all_goals rfl

/-! ## Claims -/

set_option maxRecDepth 8192 in
/-- C1: for every 200-status response whose body is the JSON envelope with
content string equal to the two-banana report JSON, and any valid
configuration and nonempty image, `analyze_image_with_vision_api` returns
the report with total_count=2, unripe_count=1, ripe_count=1,
overripe_count=0 — the two-stage decode of outer envelope then content. -/
theorem c1_envelope_decode (cfg : Config) (image : List Nat)
    (himg : image ≠ [])
    (hep : pyFalsyStr cfg.azure_endpoint = false)
    (hkey : pyFalsyStr cfg.azure_api_key = false) :
    analyze_image_with_vision_api cfg image (.resp 200 c1Body) =
      { outcome := .ret (some (.obj c1Fields)), httpCalled := true,
        request := some (builtRequest cfg image), errors := [] } ∧
    lookupKey "total_count" c1Fields = some (.num 2) ∧
    lookupKey "unripe_count" c1Fields = some (.num 1) ∧
    lookupKey "ripe_count" c1Fields = some (.num 1) ∧
    lookupKey "overripe_count" c1Fields = some (.num 0) :=
  ⟨analyze_content_ok cfg image c1Body c1InnerStr (.obj c1Fields) himg hep hkey
     rfl rfl, rfl, rfl, rfl, rfl⟩

set_option maxRecDepth 8192 in
/-- Witness for C1 at a concrete configuration and image. -/
theorem c1_envelope_decode_inst :
    analyze_image_with_vision_api cfgA [1] (.resp 200 c1Body) =
      { outcome := .ret (some (.obj c1Fields)), httpCalled := true,
        request := some (builtRequest cfgA [1]), errors := [] } ∧
    lookupKey "total_count" c1Fields = some (.num 2) ∧
    lookupKey "unripe_count" c1Fields = some (.num 1) ∧
    lookupKey "ripe_count" c1Fields = some (.num 1) ∧
    lookupKey "overripe_count" c1Fields = some (.num 0) :=
  c1_envelope_decode cfgA [1] (by simp) rfl rfl

/-- C2: whenever the endpoint or the API key is unset or empty, the function
reports the missing-configuration error and returns `None` with no HTTP
request issued (for any transport behaviour and nonempty image). -/
theorem c2_missing_config (cfg : Config) (image : List Nat)
    (http : HttpResponse) (himg : image ≠ [])
    (hcfg : pyFalsyStr cfg.azure_endpoint = true ∨
      pyFalsyStr cfg.azure_api_key = true) :
    analyze_image_with_vision_api cfg image http =
      { outcome := .ret none, httpCalled := false, request := none,
        errors := ["Missing API configuration. Please check your secrets.toml file."] } := by
  have h1 : encode_image_to_base64 image ≠ "" := encode_ne_empty image himg
  unfold analyze_image_with_vision_api
  rw [if_neg h1]
  rcases hcfg with h | h <;> simp [h]

/-- Witness for C2 with the endpoint key absent. -/
theorem c2_missing_config_inst :
    analyze_image_with_vision_api
        { azure_endpoint := none, azure_api_key := some "key",
          azure_model := none, api_version := none } [1] (.resp 200 c1Body) =
      { outcome := .ret none, httpCalled := false, request := none,
        errors := ["Missing API configuration. Please check your secrets.toml file."] } :=
  c2_missing_config _ [1] _ (by simp) (Or.inl rfl)

set_option maxRecDepth 8192 in
/-- C3 counterexample: status 201 is 2xx, yet the code takes the API-error
branch (it tests `status_code != 200`, not non-2xx) and returns `None`. -/
theorem c3_status_2xx_cex :
    200 ≤ 201 ∧ 201 < 300 ∧
    analyze_image_with_vision_api cfgA [1] (.resp 201 c1Body) =
      { outcome := .ret none, httpCalled := true,
        request := some (builtRequest cfgA [1]),
        errors := ["API Error: 201"] } :=
  ⟨by decide, by decide, rfl⟩

/-- C3 (amended): every response with status other than exactly 200 is
reported as an API error and yields `None`; at status exactly 200 the error
branch is not taken and processing proceeds to the body-parsing stage. -/
theorem c3_only_200 (cfg : Config) (image : List Nat) (status : Nat)
    (body : String) (himg : image ≠ [])
    (hep : pyFalsyStr cfg.azure_endpoint = false)
    (hkey : pyFalsyStr cfg.azure_api_key = false) :
    (status ≠ 200 →
      analyze_image_with_vision_api cfg image (.resp status body) =
        { outcome := .ret none, httpCalled := true,
          request := some (builtRequest cfg image),
          errors := ["API Error: " ++ toString status] }) ∧
    (status = 200 →
      analyze_image_with_vision_api cfg image (.resp status body) =
        responseParse cfg image body) := by
  have h1 : encode_image_to_base64 image ≠ "" := encode_ne_empty image himg
  constructor
  · intro hst
    unfold analyze_image_with_vision_api
    rw [if_neg h1]
    simp only [hep, hkey, Bool.or_self, Bool.false_eq_true, if_false]
    rw [if_pos hst]
  · intro hst
    subst hst
    exact analyze_200 cfg image body himg hep hkey

/-- Witness for C3 (amended) at status 500 and status 200. -/
theorem c3_only_200_inst :
    (analyze_image_with_vision_api cfgA [1] (.resp 500 c1Body) =
      { outcome := .ret none, httpCalled := true,
        request := some (builtRequest cfgA [1]),
        errors := ["API Error: " ++ toString 500] }) ∧
    (analyze_image_with_vision_api cfgA [1] (.resp 200 c1Body) =
      responseParse cfgA [1] c1Body) :=
  ⟨(c3_only_200 cfgA [1] 500 c1Body (by simp) rfl rfl).1 (by decide),
   (c3_only_200 cfgA [1] 200 c1Body (by simp) rfl rfl).2 rfl⟩

/-- C4: a 200 response whose content string is not valid JSON yields the
parse-error message and `None`; the outcome is a return, never an uncaught
exception. -/
theorem c4_content_not_json (cfg : Config) (image : List Nat) (body s : String)
    (himg : image ≠ [])
    (hep : pyFalsyStr cfg.azure_endpoint = false)
    (hkey : pyFalsyStr cfg.azure_api_key = false)
    (hbody : json_loads body = some (reportEnvelope s))
    (hs : json_loads s = none) :
    analyze_image_with_vision_api cfg image (.resp 200 body) =
      { outcome := .ret none, httpCalled := true,
        request := some (builtRequest cfg image),
        errors := ["Failed to parse response as JSON"] } :=
  analyze_content_bad cfg image body s himg hep hkey hbody hs

set_option maxRecDepth 8192 in
/-- Witness for C4 with the content string `not json`. -/
theorem c4_content_not_json_inst :
    analyze_image_with_vision_api cfgA [1] (.resp 200 c4Body) =
      { outcome := .ret none, httpCalled := true,
        request := some (builtRequest cfgA [1]),
        errors := ["Failed to parse response as JSON"] } :=
  c4_content_not_json cfgA [1] c4Body "not json" (by simp) rfl rfl rfl rfl

/-- C5: endpoint normalization prefixes the scheme when absent and strips
every trailing slash; `myhost.example.com/` becomes
`https://myhost.example.com`, and the request sent by the analyzer carries
the URL built from the normalized endpoint. -/
theorem c5_endpoint_normalization :
    (∀ e : String, strStartsWith e "http://" = false →
      strStartsWith e "https://" = false →
      normalizeEndpoint e = rstripSlashes ("https://" ++ e)) ∧
    (∀ e : String, (normalizeEndpoint e).data.getLast? ≠ some '/') ∧
    normalizeEndpoint "myhost.example.com/" = "https://myhost.example.com" ∧
    (∀ image : List Nat,
      (builtRequest cfgA image).url =
        "https://myhost.example.com/openai/deployments/EDM-mini/chat/completions?api-version=2024-02-15-preview") ∧
    (∀ image : List Nat, image ≠ [] →
      (analyze_image_with_vision_api cfgA image .requestException).request =
        some (builtRequest cfgA image)) := by
  refine ⟨?_, ?_, by decide, fun image => rfl, ?_⟩
  · intro e h1 h2
    unfold normalizeEndpoint
    rw [h1, h2]
    rfl
  · intro e
    exact rstripSlashes_no_trailing _
  · intro image himg
    have h1 : encode_image_to_base64 image ≠ "" := encode_ne_empty image himg
    unfold analyze_image_with_vision_api
    rw [if_neg h1]
    simp [cfgA, pyFalsyStr]

/-- Witness for C5 at the endpoint `myhost.example.com/`. -/
theorem c5_endpoint_normalization_inst :
    normalizeEndpoint "myhost.example.com/" =
      rstripSlashes ("https://" ++ "myhost.example.com/") ∧
    (normalizeEndpoint "myhost.example.com/").data.getLast? ≠ some '/' ∧
    (analyze_image_with_vision_api cfgA [137, 80, 78, 71]
        .requestException).request =
      some (builtRequest cfgA [137, 80, 78, 71]) :=
  ⟨c5_endpoint_normalization.1 "myhost.example.com/" (by decide) (by decide),
   c5_endpoint_normalization.2.1 "myhost.example.com/",
   c5_endpoint_normalization.2.2.2.2 [137, 80, 78, 71] (by decide)⟩

/-- C6: when the camera capture decodes an image, `main` analyzes the camera
frame with the upload tab never consulted; in general the upload path is
consulted exactly when the camera capture produced no image. -/
theorem c6_camera_priority (decode : List Nat → Option Nat) :
    (∀ (camBuf : List Nat) (img : Nat) (uploadBuf : Option (List Nat)),
      decode camBuf = some img →
      main_select decode (some camBuf) uploadBuf =
        { img := some img, file := some camBuf, source := some .camera,
          uploadConsulted := false }) ∧
    (∀ (cameraBuf uploadBuf : Option (List Nat)),
      (main_select decode cameraBuf uploadBuf).uploadConsulted =
        ((acquireFrom decode cameraBuf).1).isNone) := by
  constructor
  · intro camBuf img uploadBuf hdec
    simp [main_select, acquireFrom, hdec]
  · intro cameraBuf uploadBuf
    unfold main_select acquireFrom
    cases cameraBuf with
    | none => rfl
    | some buf => cases hd : decode buf <;> simp [hd]

/-- Witness for C6 with both a camera buffer and an upload buffer present. -/
theorem c6_camera_priority_inst :
    main_select (fun _ => some 7) (some [1]) (some [2]) =
      { img := some 7, file := some [1], source := some .camera,
        uploadConsulted := false } ∧
    (main_select (fun _ => some 7) (some [1]) (some [2])).uploadConsulted =
      ((acquireFrom (fun _ => some 7) (some [1])).1).isNone :=
  ⟨(c6_camera_priority (fun _ => some 7)).1 [1] 7 (some [2]) rfl,
   (c6_camera_priority (fun _ => some 7)).2 (some [1]) (some [2])⟩

set_option maxRecDepth 8192 in
/-- C7 counterexample: the content `5` is valid JSON without the report
shape, yet the function returns the number 5 with no error — it does not
surface a ParseError and does not return `None`. -/
theorem c7_shape_cex :
    analyze_image_with_vision_api cfgA [1] (.resp 200 c7Body) =
      { outcome := .ret (some (.num 5)), httpCalled := true,
        request := some (builtRequest cfgA [1]), errors := [] } ∧
    PyOutcome.ret (some (Json.num 5)) ≠ PyOutcome.ret none :=
  ⟨rfl, by simp⟩

/-- C7 (amended): the code performs no shape validation of the inner JSON —
any content string that parses is returned as-is with no error, and the
ParseError path (absent result, error surfaced) is taken exactly when the
content string is not valid JSON. -/
theorem c7_no_shape_validation (cfg : Config) (image : List Nat)
    (body s : String) (v : Json) (himg : image ≠ [])
    (hep : pyFalsyStr cfg.azure_endpoint = false)
    (hkey : pyFalsyStr cfg.azure_api_key = false)
    (hbody : json_loads body = some (reportEnvelope s)) :
    (json_loads s = some v →
      analyze_image_with_vision_api cfg image (.resp 200 body) =
        { outcome := .ret (some v), httpCalled := true,
          request := some (builtRequest cfg image), errors := [] }) ∧
    (json_loads s = none →
      analyze_image_with_vision_api cfg image (.resp 200 body) =
        { outcome := .ret none, httpCalled := true,
          request := some (builtRequest cfg image),
          errors := ["Failed to parse response as JSON"] }) :=
  ⟨fun hs => analyze_content_ok cfg image body s v himg hep hkey hbody hs,
   fun hs => analyze_content_bad cfg image body s himg hep hkey hbody hs⟩

set_option maxRecDepth 8192 in
/-- Witness for C7 (amended) at the content `5`. -/
theorem c7_no_shape_validation_inst :
    (json_loads "5" = some (.num 5) →
      analyze_image_with_vision_api cfgA [1] (.resp 200 c7Body) =
        { outcome := .ret (some (.num 5)), httpCalled := true,
          request := some (builtRequest cfgA [1]), errors := [] }) ∧
    (json_loads "5" = none →
      analyze_image_with_vision_api cfgA [1] (.resp 200 c7Body) =
        { outcome := .ret none, httpCalled := true,
          request := some (builtRequest cfgA [1]),
          errors := ["Failed to parse response as JSON"] }) :=
  c7_no_shape_validation cfgA [1] c7Body "5" (.num 5) (by simp) rfl rfl rfl

/-- C8: the intended invariant `total_count = unripe + ripe + overripe` is
not enforced: a report whose total differs from the category sum is returned
unchanged (the mismatch hypothesis is never needed by the code path). -/
theorem c8_invariant_unenforced (cfg : Config) (image : List Nat)
    (body s : String) (t u r o : Int) (d : String) (himg : image ≠ [])
    (hep : pyFalsyStr cfg.azure_endpoint = false)
    (hkey : pyFalsyStr cfg.azure_api_key = false)
    (hbody : json_loads body = some (reportEnvelope s))
    (hs : json_loads s = some (.obj
      [("total_count", .num t), ("unripe_count", .num u), ("ripe_count", .num r),
       ("overripe_count", .num o), ("detailed_analysis", .str d)]))
    (hmis : t ≠ u + r + o) :
    analyze_image_with_vision_api cfg image (.resp 200 body) =
      { outcome := .ret (some (.obj
          [("total_count", .num t), ("unripe_count", .num u),
           ("ripe_count", .num r), ("overripe_count", .num o),
           ("detailed_analysis", .str d)])),
        httpCalled := true, request := some (builtRequest cfg image),
        errors := [] } :=
  analyze_content_ok cfg image body s _ himg hep hkey hbody hs

set_option maxRecDepth 8192 in
/-- Witness for C8 with total 5 against a category sum of 2. -/
theorem c8_invariant_unenforced_inst :
    (5 : Int) ≠ 1 + 1 + 0 ∧
    analyze_image_with_vision_api cfgA [1] (.resp 200 c8Body) =
      { outcome := .ret (some (.obj
          [("total_count", .num 5), ("unripe_count", .num 1),
           ("ripe_count", .num 1), ("overripe_count", .num 0),
           ("detailed_analysis", .str "five bananas")])),
        httpCalled := true, request := some (builtRequest cfgA [1]),
        errors := [] } :=
  ⟨by decide,
   c8_invariant_unenforced cfgA [1] c8Body c8InnerStr 5 1 1 0 "five bananas"
     (by simp) rfl rfl rfl rfl (by decide)⟩

/-- C9 counterexample: on a 200 body whose `choices` is an empty list, the
code raises an uncaught IndexError (`[][0]`) — it does not default the
content to the empty object and it does not return `None`. -/
theorem c9_empty_choices_cex :
    analyze_image_with_vision_api cfgA [1] (.resp 200 c9EmptyChoicesBody) =
      { outcome := .exn "IndexError", httpCalled := true,
        request := some (builtRequest cfgA [1]), errors := [] } ∧
    PyOutcome.exn "IndexError" ≠ PyOutcome.ret (some (.obj [])) ∧
    PyOutcome.exn "IndexError" ≠ PyOutcome.ret none :=
  ⟨rfl, by simp, by simp⟩

/-- C9 (amended): with the `choices` key absent, the message absent, or the
content absent, the content defaults to the string of the empty object and
the function returns the empty object — falsy to the caller's truthiness
check; but when `choices` is present as an empty list, `[0]` raises an
uncaught IndexError instead. -/
theorem c9_content_defaults (cfg : Config) (image : List Nat)
    (himg : image ≠ [])
    (hep : pyFalsyStr cfg.azure_endpoint = false)
    (hkey : pyFalsyStr cfg.azure_api_key = false) :
    (analyze_image_with_vision_api cfg image (.resp 200 c9NoChoicesBody) =
      { outcome := .ret (some (.obj [])), httpCalled := true,
        request := some (builtRequest cfg image), errors := [] }) ∧
    (analyze_image_with_vision_api cfg image (.resp 200 c9NoMessageBody) =
      { outcome := .ret (some (.obj [])), httpCalled := true,
        request := some (builtRequest cfg image), errors := [] }) ∧
    (analyze_image_with_vision_api cfg image (.resp 200 c9NoContentBody) =
      { outcome := .ret (some (.obj [])), httpCalled := true,
        request := some (builtRequest cfg image), errors := [] }) ∧
    pyTruthy (.obj []) = false ∧
    (analyze_image_with_vision_api cfg image (.resp 200 c9EmptyChoicesBody) =
      { outcome := .exn "IndexError", httpCalled := true,
        request := some (builtRequest cfg image), errors := [] }) := by
  refine ⟨?_, ?_, ?_, rfl, ?_⟩ <;>
    rw [analyze_200 cfg image _ himg hep hkey] <;> rfl

/-- Witness for C9 (amended) at a concrete configuration and image. -/
theorem c9_content_defaults_inst :
    (analyze_image_with_vision_api cfgA [1] (.resp 200 c9NoChoicesBody) =
      { outcome := .ret (some (.obj [])), httpCalled := true,
        request := some (builtRequest cfgA [1]), errors := [] }) ∧
    (analyze_image_with_vision_api cfgA [1] (.resp 200 c9NoMessageBody) =
      { outcome := .ret (some (.obj [])), httpCalled := true,
        request := some (builtRequest cfgA [1]), errors := [] }) ∧
    (analyze_image_with_vision_api cfgA [1] (.resp 200 c9NoContentBody) =
      { outcome := .ret (some (.obj [])), httpCalled := true,
        request := some (builtRequest cfgA [1]), errors := [] }) ∧
    pyTruthy (.obj []) = false ∧
    (analyze_image_with_vision_api cfgA [1] (.resp 200 c9EmptyChoicesBody) =
      { outcome := .exn "IndexError", httpCalled := true,
        request := some (builtRequest cfgA [1]), errors := [] }) :=
  c9_content_defaults cfgA [1] (by simp) rfl rfl

/-- C10: whenever the request is sent (valid configuration, nonempty image),
its embedded data URL is the fixed `data:image/jpeg;base64,` prefix followed
by the base64 of the original byte buffer, whatever format the bytes are. -/
theorem c10_jpeg_data_url (cfg : Config) (image : List Nat)
    (http : HttpResponse) (himg : image ≠ [])
    (hep : pyFalsyStr cfg.azure_endpoint = false)
    (hkey : pyFalsyStr cfg.azure_api_key = false) :
    (analyze_image_with_vision_api cfg image http).request.map
        (fun r => r.imageDataUrl) =
      some ("data:image/jpeg;base64," ++ encode_image_to_base64 image) := by
  have h1 : encode_image_to_base64 image ≠ "" := encode_ne_empty image himg
  cases http with
  | requestException =>
      unfold analyze_image_with_vision_api
      rw [if_neg h1]
      simp only [hep, hkey, Bool.or_self, Bool.false_eq_true, if_false]
      rfl
  | resp status body =>
      by_cases hst : status = 200
      · subst hst
        rw [analyze_200 cfg image body himg hep hkey, responseParse_request]
        rfl
      · unfold analyze_image_with_vision_api
        rw [if_neg h1]
        simp only [hep, hkey, Bool.or_self, Bool.false_eq_true, if_false]
        rw [if_pos hst]
        rfl

/-- Witness for C10 with the bytes of a PNG signature, still labelled
`image/jpeg`. -/
theorem c10_jpeg_data_url_inst :
    (analyze_image_with_vision_api cfgA [137, 80, 78, 71]
        (.resp 200 "")).request.map (fun r => r.imageDataUrl) =
      some ("data:image/jpeg;base64," ++ encode_image_to_base64 [137, 80, 78, 71]) :=
  c10_jpeg_data_url cfgA [137, 80, 78, 71] (.resp 200 "") (by simp) rfl rfl
